import Mathlib

/-!
# Verification of the GPX waypoint element assembler

A shallow embedding of `src/parser/waypoint.rs` (the `consume` function) over
an explicit XML event stream, together with models of its collaborators
(`verify_starting_tag`, `string::consume`, `time::consume`, `link::consume`,
`fix::consume`, `extensions::consume`, the `Waypoint` record and the error
kinds), which are part of this repository but outside the provided sources
and are therefore modelled from the specification.

64-bit float attribute/field values are represented by rationals produced by
a decimal parse model `parseF64`; the parser logic under verification never
computes with the numbers, it only passes parsed values through, so the claims
are stated at the level of parse success/failure and value pass-through.
-/

namespace Gpx

/-- A single XML attribute: local name and raw text value. -/
structure Attribute where
  name : String
  value : String
deriving Repr, DecidableEq

/-- XML events as produced by the tokenizer collaborator: start tags with
attributes, end tags, character data, and all other event kinds collapsed
into `other` (comments, whitespace, processing instructions, ...). -/
inductive XmlEvent where
  | startElement (name : String) (attributes : List Attribute)
  | endElement (name : String)
  | characters (content : String)
  | other
deriving Repr, DecidableEq

deriving instance DecidableEq for Except

/-- An item of the reader stream: a well-lexed event or a lexer error
(the error's payload is opaque to the waypoint parser). -/
abbrev XmlItem := Except Unit XmlEvent

/-- The two grammar versions (`GpxVersion` in the source crate). -/
inductive GpxVersion where
  | Gpx10
  | Gpx11
deriving Repr, DecidableEq

/-- The parse context: the peekable event cursor plus the grammar version.
Models `Context<R>`; the reader is the list of not-yet-consumed items. -/
structure Context where
  reader : List XmlItem
  version : GpxVersion
deriving Repr, DecidableEq

/-- Modelled from the spec: the error taxonomy of §7 with the constructor
names and payloads used by `errors.rs` (not under the provided sources).
`castError` carries the `chain_err` message of a failed type cast;
`internalTimeout` is an artifact of the fuel-based embedding of the source's
loops and is unreachable whenever the fuel is at least the reader length. -/
inductive ErrorKind where
  | invalidElementLacksAttribute (attr : String) (element : String)
  | invalidChildElement (child : String) (element : String)
  | invalidClosingTag (found : String) (element : String)
  | missingClosingTag (element : String)
  | invalidOpeningTag (found : String) (expected : String)
  | missingOpeningTag (expected : String)
  | noStringContent (element : String)
  | castError (msg : String)
  | streamError (msg : String)
  | internalTimeout
deriving Repr, DecidableEq

/-- GPS fix quality (`Fix` in the source crate, parsed by `fix::consume`). -/
inductive Fix where
  | none
  | twoDimensional
  | threeDimensional
  | dgps
  | pps
deriving Repr, DecidableEq

/-- Modelled from the spec: a timestamp as returned by the time sub-parser
(`time::consume` is not under the provided sources); the claims never inspect
its structure, so it keeps the raw element text. -/
structure Time where
  raw : String
deriving Repr, DecidableEq

/-- Modelled from the spec: a link record as returned by `link::consume`
(not under the provided sources); identified by its `href` attribute. -/
structure Link where
  href : String
deriving Repr, DecidableEq

/-- A 2D point, `geo_types::Point`: `x` is longitude, `y` is latitude. -/
structure Point where
  x : Rat
  y : Rat
deriving Repr, DecidableEq

/-- `Point::new(x, y)`. -/
def Point.new (x y : Rat) : Point := ⟨x, y⟩

/-- The waypoint record of the source crate: required position, every other
field optional (`None` / empty list initially). -/
structure Waypoint where
  point : Point
  elevation : Option Rat
  speed : Option Rat
  time : Option Time
  name : Option String
  comment : Option String
  description : Option String
  source : Option String
  links : List Link
  symbol : Option String
  _type : Option String
  fix : Option Fix
  geoidheight : Option Rat
  sat : Option Nat
  hdop : Option Rat
  vdop : Option Rat
  pdop : Option Rat
  age : Option Rat
  dgpsid : Option Nat
deriving Repr, DecidableEq

/-- `Waypoint::new(point)`: position set, every optional field absent,
links empty. -/
def Waypoint.new (point : Point) : Waypoint :=
  { point := point
    elevation := none
    speed := none
    time := none
    name := none
    comment := none
    description := none
    source := none
    links := []
    symbol := none
    _type := none
    fix := none
    geoidheight := none
    sat := none
    hdop := none
    vdop := none
    pdop := none
    age := none
    dgpsid := none }

/-- Numeric value of a digit list, most significant first. -/
def digitsVal (cs : List Char) : Nat :=
  cs.foldl (fun acc c => acc * 10 + (c.toNat - 48)) 0

/-- Core of the float parse model on an unsigned decimal literal:
`ddd`, `ddd.ddd`, `ddd.` or `.ddd` (at least one digit overall). -/
def parseF64Core (cs : List Char) : Option Rat :=
  let intPart := cs.takeWhile Char.isDigit
  let rest := cs.dropWhile Char.isDigit
  match rest with
  | [] => if intPart.isEmpty then none else some ((digitsVal intPart : Nat) : Rat)
  | '.' :: frac =>
    if frac.all Char.isDigit && !(intPart.isEmpty && frac.isEmpty) then
      some (((digitsVal intPart : Nat) : Rat)
        + ((digitsVal frac : Nat) : Rat) / ((10 : Rat) ^ frac.length))
    else none
  | _ => none

/-- Model of Rust's `str::parse::<f64>` at the level the parser uses it:
success exactly on (signed) plain decimal literals, value the denoted
rational. -/
def parseF64 (s : String) : Option Rat :=
  match s.toList with
  | '-' :: rest => (parseF64Core rest).map (fun q => -q)
  | '+' :: rest => parseF64Core rest
  | cs => parseF64Core cs

/-- Model of Rust's `str::parse` for unsigned integer types with maximum
value `bound`: an optional `+` sign, then digits; fails on overflow. -/
def parseUIntBounded (bound : Nat) (s : String) : Option Nat :=
  let cs :=
    match s.toList with
    | '+' :: rest => rest
    | cs => cs
  if !cs.isEmpty && cs.all Char.isDigit then
    let v := digitsVal cs
    if v ≤ bound then some v else none
  else none

/-- `str::parse::<u16>` model. -/
def parseU16 (s : String) : Option Nat := parseUIntBounded 65535 s

/-- `str::parse::<u64>` model. -/
def parseU64 (s : String) : Option Nat := parseUIntBounded (2 ^ 64 - 1) s

/-- Drop leading and trailing whitespace from a character list. -/
def trimChars (cs : List Char) : List Char :=
  ((cs.dropWhile Char.isWhitespace).reverse.dropWhile Char.isWhitespace).reverse

/-- Structural model of `str::trim` (the standard `String.trim` is defined
by well-founded recursion on byte positions, which blocks kernel
evaluation; this list-based version is extensionally the same trim). -/
def strTrim (s : String) : String := ⟨trimChars s.toList⟩

/-- Modelled from the spec: `verify_starting_tag` (not under the provided
sources) consumes and validates the opening tag, returning its attributes. -/
def verifyStartingTag (context : Context) (tagname : String) :
    Except ErrorKind (List Attribute) × Context :=
  match context.reader with
  | .ok (.startElement name attributes) :: rest =>
    if name = tagname then (.ok attributes, { context with reader := rest })
    else (.error (.invalidOpeningTag name tagname), context)
  | .error _ :: _ => (.error (.streamError "error while parsing start event"), context)
  | _ => (.error (.missingOpeningTag tagname), context)

/-- Modelled from the spec: body loop of the scalar-field sub-parser
`string::consume` (not under the provided sources): accumulate character
data until the matching end tag, reject child elements, trim the result,
and reject an empty result unless `allowEmpty`. -/
def stringLoop (tagname : String) (allowEmpty : Bool) :
    Nat → String → Context → Except ErrorKind String × Context
  | fuel, acc, context =>
    match context.reader with
    | [] => (.error (.missingClosingTag tagname), context)
    | .error _ :: _ => (.error (.streamError "error while parsing string event"), context)
    | .ok ev :: rest =>
      match fuel with
      | 0 => (.error .internalTimeout, context)
      | fuel + 1 =>
        match ev with
        | .characters s =>
          stringLoop tagname allowEmpty fuel (acc ++ s) { context with reader := rest }
        | .endElement name =>
          if name = tagname then
            if strTrim acc = "" ∧ allowEmpty = false then
              (.error (.noStringContent tagname), context)
            else (.ok (strTrim acc), { context with reader := rest })
          else (.error (.invalidClosingTag name tagname), context)
        | .startElement child _ => (.error (.invalidChildElement child tagname), context)
        | .other =>
          stringLoop tagname allowEmpty fuel acc { context with reader := rest }

/-- Modelled from the spec: `string::consume(context, tagname, allow_empty)`
(not under the provided sources): consume the child element and return its
trimmed text content. -/
def stringConsume (context : Context) (tagname : String) (allowEmpty : Bool) :
    Except ErrorKind String × Context :=
  match context.reader with
  | .ok (.startElement name _) :: rest =>
    if name = tagname then
      stringLoop tagname allowEmpty rest.length "" { context with reader := rest }
    else (.error (.invalidOpeningTag name tagname), context)
  | .error _ :: _ => (.error (.streamError "error while parsing string event"), context)
  | _ => (.error (.missingOpeningTag tagname), context)

/-- Modelled from the spec: `time::consume` (not under the provided sources):
consume a `time` child element; the claims never inspect the timestamp, so
the raw text is kept. -/
def timeConsume (context : Context) : Except ErrorKind Time × Context :=
  match stringConsume context "time" false with
  | (.error e, c) => (.error e, c)
  | (.ok s, c) => (.ok ⟨s⟩, c)

/-- Modelled from the spec: `fix::consume` (not under the provided sources):
consume a `fix` child element and map its text to the fix-quality enum. -/
def fixConsume (context : Context) : Except ErrorKind Fix × Context :=
  match stringConsume context "fix" false with
  | (.error e, c) => (.error e, c)
  | (.ok s, c) =>
    if s = "none" then (.ok .none, c)
    else if s = "2d" then (.ok .twoDimensional, c)
    else if s = "3d" then (.ok .threeDimensional, c)
    else if s = "dgps" then (.ok .dgps, c)
    else if s = "pps" then (.ok .pps, c)
    else (.error (.castError "error while casting fix"), c)

/-- Skip events up to and including the end tag matching an already-consumed
start tag named `tagname`, tracking the nesting depth. -/
def skipToClose (tagname : String) :
    Nat → Nat → Context → Except ErrorKind Unit × Context
  | depth, fuel, context =>
    match context.reader with
    | [] => (.error (.missingClosingTag tagname), context)
    | .error _ :: _ => (.error (.streamError "error while parsing event"), context)
    | .ok ev :: rest =>
      match fuel with
      | 0 => (.error .internalTimeout, context)
      | fuel + 1 =>
        match ev with
        | .startElement _ _ => skipToClose tagname (depth + 1) fuel { context with reader := rest }
        | .endElement name =>
          match depth with
          | 0 =>
            if name = tagname then (.ok (), { context with reader := rest })
            else (.error (.invalidClosingTag name tagname), context)
          | d + 1 => skipToClose tagname d fuel { context with reader := rest }
        | _ => skipToClose tagname depth fuel { context with reader := rest }

/-- Modelled from the spec: `link::consume` (not under the provided sources):
consume a `link` child element, identified by its `href` attribute, through
its matching end tag. -/
def linkConsume (context : Context) : Except ErrorKind Link × Context :=
  match context.reader with
  | .ok (.startElement "link" attrs) :: rest =>
    match skipToClose "link" 0 rest.length { context with reader := rest } with
    | (.error e, c) => (.error e, c)
    | (.ok _, c) =>
      (.ok ⟨(((attrs.find? (fun a => a.name == "href")).map Attribute.value).getD "")⟩, c)
  | _ => (.error (.missingOpeningTag "link"), context)

/-- Modelled from the spec: `extensions::consume` (not under the provided
sources): consume the opaque `extensions` child element; its result is
discarded by the caller. -/
def extensionsConsume (context : Context) : Except ErrorKind Unit × Context :=
  match context.reader with
  | .ok (.startElement "extensions" _) :: rest =>
    skipToClose "extensions" 0 rest.length { context with reader := rest }
  | _ => (.error (.missingOpeningTag "extensions"), context)

/-- Outcome of dispatching one child start tag: abort with an error, or
continue the loop with an updated record and cursor. -/
inductive StepResult where
  | fail (e : ErrorKind) (c : Context)
  | next (w : Waypoint) (c : Context)
deriving Repr, DecidableEq

/-- The child-element dispatch of the waypoint loop in
`src/parser/waypoint.rs`: the source's `match` on the peeked start tag's
local name (with its guard on `speed`), rendered as an if-chain in the same
order. `context` still has the peeked start element at its head; each
sub-parser consumes it. An unrecognized name aborts with
`InvalidChildElement(name, "waypoint")` leaving the cursor untouched. -/
def dispatchChild (name : String) (waypoint : Waypoint) (context : Context) : StepResult :=
  if name = "ele" then
    match stringConsume context "ele" false with
    | (.error e, c) => .fail e c
    | (.ok s, c) =>
      match parseF64 s with
      | none => .fail (.castError "error while casting elevation to f64") c
      | some v => .next { waypoint with elevation := some v } c
  else if name = "speed" ∧ context.version = GpxVersion.Gpx10 then
    match stringConsume context "speed" false with
    | (.error e, c) => .fail e c
    | (.ok s, c) =>
      match parseF64 s with
      | none => .fail (.castError "error while casting speed to f64") c
      | some v => .next { waypoint with speed := some v } c
  else if name = "time" then
    match timeConsume context with
    | (.error e, c) => .fail e c
    | (.ok t, c) => .next { waypoint with time := some t } c
  else if name = "name" then
    match stringConsume context "name" false with
    | (.error e, c) => .fail e c
    | (.ok s, c) => .next { waypoint with name := some s } c
  else if name = "cmt" then
    match stringConsume context "cmt" true with
    | (.error e, c) => .fail e c
    | (.ok s, c) => .next { waypoint with comment := some s } c
  else if name = "desc" then
    match stringConsume context "desc" true with
    | (.error e, c) => .fail e c
    | (.ok s, c) => .next { waypoint with description := some s } c
  else if name = "src" then
    match stringConsume context "src" true with
    | (.error e, c) => .fail e c
    | (.ok s, c) => .next { waypoint with source := some s } c
  else if name = "link" then
    match linkConsume context with
    | (.error e, c) => .fail e c
    | (.ok l, c) => .next { waypoint with links := waypoint.links ++ [l] } c
  else if name = "sym" then
    match stringConsume context "sym" false with
    | (.error e, c) => .fail e c
    | (.ok s, c) => .next { waypoint with symbol := some s } c
  else if name = "type" then
    match stringConsume context "type" false with
    | (.error e, c) => .fail e c
    | (.ok s, c) => .next { waypoint with _type := some s } c
  else if name = "fix" then
    match fixConsume context with
    | (.error e, c) => .fail e c
    | (.ok f, c) => .next { waypoint with fix := some f } c
  else if name = "geoidheight" then
    match stringConsume context "geoidheight" false with
    | (.error e, c) => .fail e c
    | (.ok s, c) =>
      match parseF64 s with
      | none => .fail (.castError "error while casting geoid (geoidheight) to f64") c
      | some v => .next { waypoint with geoidheight := some v } c
  else if name = "sat" then
    match stringConsume context "sat" false with
    | (.error e, c) => .fail e c
    | (.ok s, c) =>
      match parseU64 s with
      | none => .fail (.castError "error while casting number of satellites (sat) to u64") c
      | some v => .next { waypoint with sat := some v } c
  else if name = "hdop" then
    match stringConsume context "hdop" false with
    | (.error e, c) => .fail e c
    | (.ok s, c) =>
      match parseF64 s with
      | none =>
        .fail (.castError "error while casting horizontal dilution of precision (hdop) to f64") c
      | some v => .next { waypoint with hdop := some v } c
  else if name = "vdop" then
    match stringConsume context "vdop" false with
    | (.error e, c) => .fail e c
    | (.ok s, c) =>
      match parseF64 s with
      | none =>
        .fail (.castError "error while casting vertical dilution of precision (vdop) to f64") c
      | some v => .next { waypoint with vdop := some v } c
  else if name = "pdop" then
    match stringConsume context "pdop" false with
    | (.error e, c) => .fail e c
    | (.ok s, c) =>
      match parseF64 s with
      | none =>
        .fail (.castError "error while casting position dilution of precision (pdop) to f64") c
      | some v => .next { waypoint with pdop := some v } c
  else if name = "ageofgpsdata" then
    match stringConsume context "ageofgpsdata" false with
    | (.error e, c) => .fail e c
    | (.ok s, c) =>
      match parseF64 s with
      | none => .fail (.castError "error while casting age of GPS data to f64") c
      | some v => .next { waypoint with age := some v } c
  else if name = "dgpsid" then
    match stringConsume context "dgpsid" false with
    | (.error e, c) => .fail e c
    | (.ok s, c) =>
      match parseU16 s with
      | none => .fail (.castError "error while casting DGPS station ID to u16") c
      | some v => .next { waypoint with dgpsid := some v } c
  else if name = "extensions" then
    match extensionsConsume context with
    | (.error e, c) => .fail e c
    | (.ok _, c) => .next waypoint c
  else .fail (.invalidChildElement name "waypoint") context

/-- The waypoint `loop` of `consume` in `src/parser/waypoint.rs`: peek the
next event; dispatch start tags by local name via `dispatchChild`, finish on
the matching end tag, reject a mismatched end tag, skip every other event
kind, and fail with `MissingClosingTag("waypoint")` on stream exhaustion.
The `fuel` argument makes the source loop a structural recursion; each
iteration consumes at least one reader item, so fuel equal to the reader
length never reaches the `internalTimeout` case. -/
def consumeLoop (tagname : String) :
    Nat -> Waypoint -> Context -> Except ErrorKind Waypoint × Context
  | fuel, waypoint, context =>
    match context.reader with
    | [] => (.error (.missingClosingTag "waypoint"), context)
    | .error _ :: _ => (.error (.streamError "error while parsing waypoint event"), context)
    | .ok next_event :: rest =>
      match fuel with
      | 0 => (.error .internalTimeout, context)
      | fuel + 1 =>
        match next_event with
        | .startElement name _ =>
          match dispatchChild name waypoint context with
          | .fail e c => (.error e, c)
          | .next w c => consumeLoop tagname fuel w c
        | .endElement name =>
          if name = tagname then (.ok waypoint, { context with reader := rest })
          else (.error (.invalidClosingTag name "waypoint"), context)
        | _ => consumeLoop tagname fuel waypoint { context with reader := rest }

/-- `consume` of `src/parser/waypoint.rs`: verify the opening tag, extract
and cast the required `lat` then `lon` attributes, construct the waypoint,
and run the child-element loop. -/
def consume (context : Context) (tagname : String) : Except ErrorKind Waypoint × Context :=
  match verifyStartingTag context tagname with
  | (.error e, c) => (.error e, c)
  | (.ok attributes, c) =>
    match attributes.find? (fun attr => attr.name == "lat") with
    | none => (.error (.invalidElementLacksAttribute "latitude" "waypoint"), c)
    | some latAttr =>
      match parseF64 latAttr.value with
      | none => (.error (.castError "error while casting latitude to f64"), c)
      | some latitude =>
        match attributes.find? (fun attr => attr.name == "lon") with
        | none => (.error (.invalidElementLacksAttribute "longitude" "waypoint"), c)
        | some lonAttr =>
          match parseF64 lonAttr.value with
          | none => (.error (.castError "error while casting longitude to f64"), c)
          | some longitude =>
            consumeLoop tagname c.reader.length (Waypoint.new (Point.new longitude latitude)) c

/-- The child tag names the dispatch of `consumeLoop` recognizes under a
given grammar version (`speed` only under `Gpx10`). -/
def recognizedChildTags (version : GpxVersion) : List String :=
  ["ele", "time", "name", "cmt", "desc", "src", "link", "sym", "type", "fix",
    "geoidheight", "sat", "hdop", "vdop", "pdop", "ageofgpsdata", "dgpsid", "extensions"]
    ++ (if version = GpxVersion.Gpx10 then ["speed"] else [])

/-- Reader items the waypoint loop consumes and discards without touching
the record: character data and `other` events. -/
def ignorableItem : XmlItem → Bool
  | .ok (.characters _) => true
  | .ok .other => true
  | _ => false

end Gpx

namespace Gpx

/-! ## Helper lemmas -/

theorem parseF64_empty : parseF64 "" = none := rfl

theorem trim_ne_empty_of_parseF64 {s : String} {v : Rat}
    (h : parseF64 (strTrim s) = some v) : ¬(strTrim s = "") := by
  intro h0
  rw [h0, parseF64_empty] at h
  exact Option.noConfusion h

/-! ## C1 -/

/-- C1: parsing an element whose opening tag carries parseable `lat` and
`lon` attribute values and whose body is empty (the opening tag immediately
followed by the matching closing tag) succeeds with a waypoint whose
position is exactly the parsed `(lon, lat)` pair, every optional field
absent, and the links sequence empty. -/
theorem empty_element_yields_bare_waypoint (tagname : String) (attrs : List Attribute)
    (latA lonA : Attribute) (la lo : Rat) (version : GpxVersion)
    (hla : attrs.find? (fun attr => attr.name == "lat") = some latA)
    (hpla : parseF64 latA.value = some la)
    (hlo : attrs.find? (fun attr => attr.name == "lon") = some lonA)
    (hplo : parseF64 lonA.value = some lo) :
    consume ⟨[.ok (.startElement tagname attrs), .ok (.endElement tagname)], version⟩ tagname
      = (.ok
          { point := ⟨lo, la⟩
            elevation := none
            speed := none
            time := none
            name := none
            comment := none
            description := none
            source := none
            links := []
            symbol := none
            _type := none
            fix := none
            geoidheight := none
            sat := none
            hdop := none
            vdop := none
            pdop := none
            age := none
            dgpsid := none },
        ⟨[], version⟩) := by
  simp [consume, verifyStartingTag, hla, hpla, hlo, hplo, consumeLoop, Waypoint.new, Point.new]

/-- Witness for C1 at the spec's end-to-end example
`<trkpt lat="2.345" lon="1.234"></trkpt>`. -/
theorem empty_element_yields_bare_waypoint_witness :
    consume ⟨[.ok (.startElement "trkpt" [⟨"lat", "2.345"⟩, ⟨"lon", "1.234"⟩]),
              .ok (.endElement "trkpt")], .Gpx11⟩ "trkpt"
      = (.ok
          { point := ⟨617 / 500, 469 / 200⟩
            elevation := none
            speed := none
            time := none
            name := none
            comment := none
            description := none
            source := none
            links := []
            symbol := none
            _type := none
            fix := none
            geoidheight := none
            sat := none
            hdop := none
            vdop := none
            pdop := none
            age := none
            dgpsid := none },
        ⟨[], .Gpx11⟩) :=
  empty_element_yields_bare_waypoint "trkpt" [⟨"lat", "2.345"⟩, ⟨"lon", "1.234"⟩]
    ⟨"lat", "2.345"⟩ ⟨"lon", "1.234"⟩ (469 / 200) (617 / 500) .Gpx11
    rfl
    (by show some ((2 : ℚ) + (345 : ℚ) / (10 : ℚ) ^ (3 : ℕ)) = some (469 / 200); norm_num)
    rfl
    (by show some ((1 : ℚ) + (234 : ℚ) / (10 : ℚ) ^ (3 : ℕ)) = some (617 / 500); norm_num)

/-! ## Unfolding lemmas for the waypoint loop -/

theorem consumeLoop_nil (tagname : String) (fuel : Nat) (w : Waypoint)
    (version : GpxVersion) :
    consumeLoop tagname fuel w ⟨[], version⟩
      = (.error (.missingClosingTag "waypoint"), ⟨[], version⟩) := by
  cases fuel <;> rfl

theorem consumeLoop_chars (tagname : String) (s : String) (fuel : Nat) (w : Waypoint)
    (rest : List XmlItem) (version : GpxVersion) :
    consumeLoop tagname (fuel + 1) w ⟨.ok (.characters s) :: rest, version⟩
      = consumeLoop tagname fuel w ⟨rest, version⟩ := rfl

theorem consumeLoop_other (tagname : String) (fuel : Nat) (w : Waypoint)
    (rest : List XmlItem) (version : GpxVersion) :
    consumeLoop tagname (fuel + 1) w ⟨.ok .other :: rest, version⟩
      = consumeLoop tagname fuel w ⟨rest, version⟩ := rfl

/-! ## C2 -/

/-- Counterexample to C2 as stated: on an opening tag whose `lon` attribute
is absent and whose `lat` attribute is present but not parseable as a float,
`consume` fails with the latitude cast error, not with the
`MissingAttribute` (`InvalidElementLacksAttribute`) error kind. -/
theorem missing_lon_with_bad_lat_counterexample :
    (([⟨"lat", "x"⟩] : List Attribute).find? (fun attr => attr.name == "lon") = none)
    ∧ (consume ⟨[.ok (.startElement "wpt" [⟨"lat", "x"⟩]), .ok (.endElement "wpt")],
          .Gpx11⟩ "wpt").1
        = .error (.castError "error while casting latitude to f64")
    ∧ (consume ⟨[.ok (.startElement "wpt" [⟨"lat", "x"⟩]), .ok (.endElement "wpt")],
          .Gpx11⟩ "wpt").1
        ≠ .error (.invalidElementLacksAttribute "latitude" "waypoint")
    ∧ (consume ⟨[.ok (.startElement "wpt" [⟨"lat", "x"⟩]), .ok (.endElement "wpt")],
          .Gpx11⟩ "wpt").1
        ≠ .error (.invalidElementLacksAttribute "longitude" "waypoint") :=
  ⟨rfl, rfl, by decide, by decide⟩

/-- C2 (amended): if the `lat` attribute is absent, `consume` fails with
`MissingAttribute` naming latitude, regardless of the rest of the input; if
the `lon` attribute is absent and the `lat` attribute is present with a
parseable value, `consume` fails with `MissingAttribute` naming longitude;
if the `lat` attribute is present but not parseable, `consume` fails with
the latitude cast error (even when `lon` is also absent). No record is
returned in any of these cases. -/
theorem missing_attribute_amended (tagname : String) (attrs : List Attribute)
    (rest : List XmlItem) (version : GpxVersion) :
    (attrs.find? (fun attr => attr.name == "lat") = none →
      (consume ⟨.ok (.startElement tagname attrs) :: rest, version⟩ tagname).1
        = .error (.invalidElementLacksAttribute "latitude" "waypoint"))
    ∧ (∀ latA la, attrs.find? (fun attr => attr.name == "lat") = some latA →
        parseF64 latA.value = some la →
        attrs.find? (fun attr => attr.name == "lon") = none →
        (consume ⟨.ok (.startElement tagname attrs) :: rest, version⟩ tagname).1
          = .error (.invalidElementLacksAttribute "longitude" "waypoint"))
    ∧ (∀ latA, attrs.find? (fun attr => attr.name == "lat") = some latA →
        parseF64 latA.value = none →
        (consume ⟨.ok (.startElement tagname attrs) :: rest, version⟩ tagname).1
          = .error (.castError "error while casting latitude to f64")) := by
  refine ⟨fun h => ?_, fun latA la h1 h2 h3 => ?_, fun latA h1 h2 => ?_⟩
  · simp [consume, verifyStartingTag, h]
  · simp [consume, verifyStartingTag, h1, h2, h3]
  · simp [consume, verifyStartingTag, h1, h2]

/-- Witness for the amended C2: a missing latitude attribute yields the
latitude `MissingAttribute` error. -/
theorem missing_attribute_amended_witness :
    (consume ⟨[.ok (.startElement "wpt" [⟨"lon", "1"⟩]), .ok (.endElement "wpt")],
        .Gpx11⟩ "wpt").1
      = .error (.invalidElementLacksAttribute "latitude" "waypoint") :=
  (missing_attribute_amended "wpt" [⟨"lon", "1"⟩] [.ok (.endElement "wpt")] .Gpx11).1 rfl

/-! ## C3 -/

/-- C3: when both coordinate attributes are present but at least one value
is not parseable as a float, `consume` returns a cast error and never a
record (the embedded function is total by construction, so no panic is
possible). -/
theorem unparseable_coordinate_cast_error (tagname : String) (attrs : List Attribute)
    (rest : List XmlItem) (version : GpxVersion) (latA lonA : Attribute)
    (hla : attrs.find? (fun attr => attr.name == "lat") = some latA)
    (hlo : attrs.find? (fun attr => attr.name == "lon") = some lonA)
    (h : parseF64 latA.value = none ∨ parseF64 lonA.value = none) :
    ∃ msg, (consume ⟨.ok (.startElement tagname attrs) :: rest, version⟩ tagname).1
      = .error (.castError msg) := by
  rcases h with h | h
  · exact ⟨"error while casting latitude to f64", by simp [consume, verifyStartingTag, hla, h]⟩
  · rcases hpl : parseF64 latA.value with _ | la
    · exact ⟨"error while casting latitude to f64", by simp [consume, verifyStartingTag, hla, hpl]⟩
    · exact ⟨"error while casting longitude to f64",
        by simp [consume, verifyStartingTag, hla, hpl, hlo, h]⟩

/-- Witness for C3 at the spec's example `<wpt lat="32.4" lon="notanumber">`. -/
theorem unparseable_coordinate_cast_error_witness :
    ∃ msg, (consume ⟨[.ok (.startElement "wpt" [⟨"lat", "32.4"⟩, ⟨"lon", "notanumber"⟩]),
        .ok (.endElement "wpt")], .Gpx11⟩ "wpt").1 = .error (.castError msg) :=
  unparseable_coordinate_cast_error "wpt" [⟨"lat", "32.4"⟩, ⟨"lon", "notanumber"⟩]
    [.ok (.endElement "wpt")] .Gpx11 ⟨"lat", "32.4"⟩ ⟨"lon", "notanumber"⟩
    rfl rfl (Or.inr rfl)

/-! ## C10 -/

/-- C10: attribute validation is ordered latitude first: with both
coordinate attributes absent the error names latitude, and with a
non-parseable latitude and a missing longitude the error is the latitude
cast error rather than a missing-longitude error. -/
theorem attribute_validation_order (tagname : String) (attrs : List Attribute)
    (rest : List XmlItem) (version : GpxVersion) :
    (attrs.find? (fun attr => attr.name == "lat") = none →
      attrs.find? (fun attr => attr.name == "lon") = none →
      (consume ⟨.ok (.startElement tagname attrs) :: rest, version⟩ tagname).1
        = .error (.invalidElementLacksAttribute "latitude" "waypoint"))
    ∧ (∀ latA, attrs.find? (fun attr => attr.name == "lat") = some latA →
        parseF64 latA.value = none →
        attrs.find? (fun attr => attr.name == "lon") = none →
        (consume ⟨.ok (.startElement tagname attrs) :: rest, version⟩ tagname).1
          = .error (.castError "error while casting latitude to f64")) := by
  refine ⟨fun h1 _ => ?_, fun latA h1 h2 _ => ?_⟩
  · simp [consume, verifyStartingTag, h1]
  · simp [consume, verifyStartingTag, h1, h2]

/-- Witness for C10: an opening tag with no attributes at all yields the
latitude `MissingAttribute` error. -/
theorem attribute_validation_order_witness :
    (consume ⟨[.ok (.startElement "wpt" [])], .Gpx11⟩ "wpt").1
      = .error (.invalidElementLacksAttribute "latitude" "waypoint") :=
  (attribute_validation_order "wpt" [] [] .Gpx11).1 rfl rfl

/-! ## Unfolding lemmas for the modelled sub-parsers -/

theorem parseU16_empty : parseU16 "" = none := rfl

theorem trim_ne_empty_of_parseU16 {s : String} {n : Nat}
    (h : parseU16 (strTrim s) = some n) : ¬(strTrim s = "") := by
  intro h0
  rw [h0, parseU16_empty] at h
  exact Option.noConfusion h

theorem parseUIntBounded_le {b : Nat} {s : String} {n : Nat}
    (h : parseUIntBounded b s = some n) : n ≤ b := by
  have key : ∀ cs : List Char,
      (if (!cs.isEmpty && cs.all Char.isDigit) = true then
        if digitsVal cs ≤ b then some (digitsVal cs) else none
      else none) = some n → n ≤ b := by
    intro cs hcs
    by_cases h1 : (!cs.isEmpty && cs.all Char.isDigit) = true
    · rw [if_pos h1] at hcs
      by_cases h2 : digitsVal cs ≤ b
      · rw [if_pos h2] at hcs
        injection hcs with hv
        omega
      · rw [if_neg h2] at hcs
        exact Option.noConfusion hcs
    · rw [if_neg h1] at hcs
      exact Option.noConfusion hcs
  unfold parseUIntBounded at h
  split at h
  · exact key _ h
  · exact key _ h

theorem stringConsume_element (tagname s : String) (cattrs : List Attribute)
    (allowEmpty : Bool) (rest : List XmlItem) (version : GpxVersion)
    (hne : ¬(strTrim s = "" ∧ allowEmpty = false)) :
    stringConsume ⟨.ok (.startElement tagname cattrs) :: .ok (.characters s)
        :: .ok (.endElement tagname) :: rest, version⟩ tagname allowEmpty
      = (.ok (strTrim s), ⟨rest, version⟩) := by
  simp [stringConsume, stringLoop, String.empty_append, hne]

theorem linkConsume_element (h : String) (rest : List XmlItem) (version : GpxVersion) :
    linkConsume ⟨.ok (.startElement "link" [⟨"href", h⟩]) :: .ok (.endElement "link") :: rest,
        version⟩
      = (.ok ⟨h⟩, ⟨rest, version⟩) := by
  simp [linkConsume, skipToClose]

/-! ## C4 -/

/-- C4: a child start tag whose name is not among the recognized waypoint
child tags for the active grammar version makes `consume` fail immediately
with `UnexpectedChildElement` (`InvalidChildElement`) naming that tag and
the waypoint element; the offending start tag and everything after it are
left unconsumed. -/
theorem unrecognized_child_aborts (tagname child : String)
    (attrs cattrs : List Attribute) (rest : List XmlItem) (version : GpxVersion)
    (latA lonA : Attribute) (la lo : Rat)
    (hla : attrs.find? (fun attr => attr.name == "lat") = some latA)
    (hpla : parseF64 latA.value = some la)
    (hlo : attrs.find? (fun attr => attr.name == "lon") = some lonA)
    (hplo : parseF64 lonA.value = some lo)
    (hchild : child ∉ recognizedChildTags version) :
    consume ⟨.ok (.startElement tagname attrs) :: .ok (.startElement child cattrs) :: rest,
        version⟩ tagname
      = (.error (.invalidChildElement child "waypoint"),
        ⟨.ok (.startElement child cattrs) :: rest, version⟩) := by
  have h01 : child ≠ "ele" := fun h => hchild (by simp [recognizedChildTags, h])
  have h02 : child ≠ "time" := fun h => hchild (by simp [recognizedChildTags, h])
  have h03 : child ≠ "name" := fun h => hchild (by simp [recognizedChildTags, h])
  have h04 : child ≠ "cmt" := fun h => hchild (by simp [recognizedChildTags, h])
  have h05 : child ≠ "desc" := fun h => hchild (by simp [recognizedChildTags, h])
  have h06 : child ≠ "src" := fun h => hchild (by simp [recognizedChildTags, h])
  have h07 : child ≠ "link" := fun h => hchild (by simp [recognizedChildTags, h])
  have h08 : child ≠ "sym" := fun h => hchild (by simp [recognizedChildTags, h])
  have h09 : child ≠ "type" := fun h => hchild (by simp [recognizedChildTags, h])
  have h10 : child ≠ "fix" := fun h => hchild (by simp [recognizedChildTags, h])
  have h11 : child ≠ "geoidheight" := fun h => hchild (by simp [recognizedChildTags, h])
  have h12 : child ≠ "sat" := fun h => hchild (by simp [recognizedChildTags, h])
  have h13 : child ≠ "hdop" := fun h => hchild (by simp [recognizedChildTags, h])
  have h14 : child ≠ "vdop" := fun h => hchild (by simp [recognizedChildTags, h])
  have h15 : child ≠ "pdop" := fun h => hchild (by simp [recognizedChildTags, h])
  have h16 : child ≠ "ageofgpsdata" := fun h => hchild (by simp [recognizedChildTags, h])
  have h17 : child ≠ "dgpsid" := fun h => hchild (by simp [recognizedChildTags, h])
  have h18 : child ≠ "extensions" := fun h => hchild (by simp [recognizedChildTags, h])
  have hspeed : ¬(child = "speed" ∧ version = GpxVersion.Gpx10) := by
    rintro ⟨rfl, rfl⟩
    exact hchild (by simp [recognizedChildTags])
  simp [consume, verifyStartingTag, hla, hpla, hlo, hplo, consumeLoop, dispatchChild,
    h01, h02, h03, h04, h05, h06, h07, h08, h09, h10, h11, h12, h13, h14, h15, h16,
    h17, h18, hspeed]

/-- Witness for C4: a `foobar` child aborts the parse with the cursor still
holding the offending tag. -/
theorem unrecognized_child_aborts_witness :
    consume ⟨[.ok (.startElement "wpt" [⟨"lat", "1"⟩, ⟨"lon", "2"⟩]),
        .ok (.startElement "foobar" []), .ok .other], .Gpx11⟩ "wpt"
      = (.error (.invalidChildElement "foobar" "waypoint"),
        ⟨[.ok (.startElement "foobar" []), .ok .other], .Gpx11⟩) :=
  unrecognized_child_aborts "wpt" "foobar" [⟨"lat", "1"⟩, ⟨"lon", "2"⟩] []
    [.ok .other] .Gpx11 ⟨"lat", "1"⟩ ⟨"lon", "2"⟩ 1 2 rfl rfl rfl rfl (by decide)

/-! ## C6 -/

/-- Counterexample to C6 as stated: with expected closing tag `trkpt` and a
mismatched end tag `wpt`, the error carries the found tag and the fixed
element kind `"waypoint"`; the expected tag name `trkpt` appears in neither
component, so the error does not name the expected tag. -/
theorem mismatched_closing_names_waypoint_counterexample :
    (consume ⟨[.ok (.startElement "trkpt" [⟨"lat", "1"⟩, ⟨"lon", "2"⟩]),
        .ok (.endElement "wpt")], .Gpx11⟩ "trkpt").1
      = .error (.invalidClosingTag "wpt" "waypoint")
    ∧ ("waypoint" : String) ≠ "trkpt" ∧ ("wpt" : String) ≠ "trkpt" :=
  ⟨rfl, by decide, by decide⟩

/-- C6 (amended): an end tag at the waypoint nesting level whose name
differs from the expected closing tag makes `consume` fail with
`MismatchedClosingTag` (`InvalidClosingTag`) carrying the found tag name and
the fixed enclosing element kind `"waypoint"` (not the expected tag name);
the mismatched end tag is left unconsumed. -/
theorem mismatched_closing_tag_amended (tagname found : String) (attrs : List Attribute)
    (rest : List XmlItem) (version : GpxVersion) (latA lonA : Attribute) (la lo : Rat)
    (hla : attrs.find? (fun attr => attr.name == "lat") = some latA)
    (hpla : parseF64 latA.value = some la)
    (hlo : attrs.find? (fun attr => attr.name == "lon") = some lonA)
    (hplo : parseF64 lonA.value = some lo)
    (hne : found ≠ tagname) :
    consume ⟨.ok (.startElement tagname attrs) :: .ok (.endElement found) :: rest,
        version⟩ tagname
      = (.error (.invalidClosingTag found "waypoint"),
        ⟨.ok (.endElement found) :: rest, version⟩) := by
  simp [consume, verifyStartingTag, hla, hpla, hlo, hplo, consumeLoop, hne]

/-- Witness for the amended C6. -/
theorem mismatched_closing_tag_amended_witness :
    consume ⟨[.ok (.startElement "trkpt" [⟨"lat", "1"⟩, ⟨"lon", "2"⟩]),
        .ok (.endElement "wpt")], .Gpx11⟩ "trkpt"
      = (.error (.invalidClosingTag "wpt" "waypoint"),
        ⟨[.ok (.endElement "wpt")], .Gpx11⟩) :=
  mismatched_closing_tag_amended "trkpt" "wpt" [⟨"lat", "1"⟩, ⟨"lon", "2"⟩] []
    .Gpx11 ⟨"lat", "1"⟩ ⟨"lon", "2"⟩ 1 2 rfl rfl rfl rfl (by decide)

/-! ## C7 -/

/-- After the attributes are validated, a reader holding only character data
and `other` events is drained completely and ends in
`MissingClosingTag("waypoint")`. -/
theorem consumeLoop_ignorable (tagname : String) (version : GpxVersion)
    (evs : List XmlItem) :
    ∀ w : Waypoint, evs.all ignorableItem = true →
      consumeLoop tagname evs.length w ⟨evs, version⟩
        = (.error (.missingClosingTag "waypoint"), ⟨[], version⟩) := by
  induction evs with
  | nil => intro w _; exact consumeLoop_nil tagname 0 w version
  | cons e rest ih =>
    intro w h
    rw [List.all_cons, Bool.and_eq_true] at h
    obtain ⟨h1, h2⟩ := h
    match e with
    | .ok (.characters s) =>
      rw [show (List.cons (.ok (.characters s)) rest).length = rest.length + 1 from rfl,
        consumeLoop_chars]
      exact ih w h2
    | .ok .other =>
      rw [show (List.cons (Except.ok XmlEvent.other) rest).length = rest.length + 1 from rfl,
        consumeLoop_other]
      exact ih w h2
    | .ok (.startElement n a) => simp [ignorableItem] at h1
    | .ok (.endElement n) => simp [ignorableItem] at h1
    | .error u => simp [ignorableItem] at h1

/-- C7: when the event stream after the validated opening tag holds only
ignorable events (character data, comments and the like) and is exhausted
before any end tag, `consume` fails with `UnterminatedElement`
(`MissingClosingTag`) and never returns a record. -/
theorem stream_exhausted_unterminated (tagname : String) (attrs : List Attribute)
    (evs : List XmlItem) (version : GpxVersion) (latA lonA : Attribute) (la lo : Rat)
    (hla : attrs.find? (fun attr => attr.name == "lat") = some latA)
    (hpla : parseF64 latA.value = some la)
    (hlo : attrs.find? (fun attr => attr.name == "lon") = some lonA)
    (hplo : parseF64 lonA.value = some lo)
    (hevs : evs.all ignorableItem = true) :
    consume ⟨.ok (.startElement tagname attrs) :: evs, version⟩ tagname
      = (.error (.missingClosingTag "waypoint"), ⟨[], version⟩) := by
  have hloop := consumeLoop_ignorable tagname version evs
    (Waypoint.new (Point.new lo la)) hevs
  simp only [consume, verifyStartingTag]
  simp [hla, hpla, hlo, hplo]
  exact hloop

/-- Witness for C7. -/
theorem stream_exhausted_unterminated_witness :
    consume ⟨[.ok (.startElement "wpt" [⟨"lat", "1"⟩, ⟨"lon", "2"⟩]), .ok .other,
        .ok (.characters "hello")], .Gpx11⟩ "wpt"
      = (.error (.missingClosingTag "waypoint"), ⟨[], .Gpx11⟩) :=
  stream_exhausted_unterminated "wpt" [⟨"lat", "1"⟩, ⟨"lon", "2"⟩]
    [.ok .other, .ok (.characters "hello")] .Gpx11 ⟨"lat", "1"⟩ ⟨"lon", "2"⟩ 1 2
    rfl rfl rfl rfl rfl

/-! ## C5 -/

/-- C5: a `speed` child element whose trimmed text parses as a float
populates the speed field under grammar version `Gpx10`; under `Gpx11` the
same input fails with `UnexpectedChildElement` for the `speed` tag. -/
theorem speed_version_conditional (tagname s : String) (attrs : List Attribute)
    (latA lonA : Attribute) (la lo v : Rat)
    (hla : attrs.find? (fun attr => attr.name == "lat") = some latA)
    (hpla : parseF64 latA.value = some la)
    (hlo : attrs.find? (fun attr => attr.name == "lon") = some lonA)
    (hplo : parseF64 lonA.value = some lo)
    (hv : parseF64 (strTrim s) = some v) :
    ((consume ⟨[.ok (.startElement tagname attrs), .ok (.startElement "speed" []),
        .ok (.characters s), .ok (.endElement "speed"), .ok (.endElement tagname)],
        .Gpx10⟩ tagname).1
      = .ok { Waypoint.new ⟨lo, la⟩ with speed := some v })
    ∧ ((consume ⟨[.ok (.startElement tagname attrs), .ok (.startElement "speed" []),
        .ok (.characters s), .ok (.endElement "speed"), .ok (.endElement tagname)],
        .Gpx11⟩ tagname).1
      = .error (.invalidChildElement "speed" "waypoint")) := by
  constructor
  · have hsc := stringConsume_element "speed" s [] false
      [.ok (.endElement tagname)] .Gpx10
      (fun hc => trim_ne_empty_of_parseF64 hv hc.1)
    simp [consume, verifyStartingTag, hla, hpla, hlo, hplo, consumeLoop, dispatchChild,
      hsc, hv, Waypoint.new, Point.new]
  · simp [consume, verifyStartingTag, hla, hpla, hlo, hplo, consumeLoop, dispatchChild]

/-- Witness for C5 with speed text `0.5`. -/
theorem speed_version_conditional_witness :
    ((consume ⟨[.ok (.startElement "wpt" [⟨"lat", "1"⟩, ⟨"lon", "2"⟩]),
        .ok (.startElement "speed" []), .ok (.characters "0.5"),
        .ok (.endElement "speed"), .ok (.endElement "wpt")], .Gpx10⟩ "wpt").1
      = .ok { Waypoint.new ⟨2, 1⟩ with speed := some (1 / 2) })
    ∧ ((consume ⟨[.ok (.startElement "wpt" [⟨"lat", "1"⟩, ⟨"lon", "2"⟩]),
        .ok (.startElement "speed" []), .ok (.characters "0.5"),
        .ok (.endElement "speed"), .ok (.endElement "wpt")], .Gpx11⟩ "wpt").1
      = .error (.invalidChildElement "speed" "waypoint")) :=
  speed_version_conditional "wpt" "0.5" [⟨"lat", "1"⟩, ⟨"lon", "2"⟩]
    ⟨"lat", "1"⟩ ⟨"lon", "2"⟩ 1 2 (1 / 2) rfl rfl rfl rfl
    (by show some ((0 : ℚ) + (5 : ℚ) / (10 : ℚ) ^ (1 : ℕ)) = some (1 / 2); norm_num)

/-! ## C8 -/

/-- C8: in a successfully parsed element, a repeated scalar child tag leaves
the field holding the last occurrence's value (shown for the float scalar
`ele` and the string scalar `name`), while repeated `link` children append
one entry per occurrence in stream order. -/
theorem duplicate_children_overwrite_links_append
    (tagname e1 e2 s1 s2 h1 h2 : String) (attrs : List Attribute)
    (version : GpxVersion) (latA lonA : Attribute) (la lo v1 v2 : Rat)
    (hla : attrs.find? (fun attr => attr.name == "lat") = some latA)
    (hpla : parseF64 latA.value = some la)
    (hlo : attrs.find? (fun attr => attr.name == "lon") = some lonA)
    (hplo : parseF64 lonA.value = some lo)
    (he1 : parseF64 (strTrim e1) = some v1)
    (he2 : parseF64 (strTrim e2) = some v2)
    (hs1 : ¬(strTrim s1 = ""))
    (hs2 : ¬(strTrim s2 = "")) :
    (consume ⟨[.ok (.startElement tagname attrs),
        .ok (.startElement "ele" []), .ok (.characters e1), .ok (.endElement "ele"),
        .ok (.startElement "ele" []), .ok (.characters e2), .ok (.endElement "ele"),
        .ok (.startElement "name" []), .ok (.characters s1), .ok (.endElement "name"),
        .ok (.startElement "name" []), .ok (.characters s2), .ok (.endElement "name"),
        .ok (.startElement "link" [⟨"href", h1⟩]), .ok (.endElement "link"),
        .ok (.startElement "link" [⟨"href", h2⟩]), .ok (.endElement "link"),
        .ok (.endElement tagname)], version⟩ tagname).1
      = .ok { Waypoint.new ⟨lo, la⟩ with
          elevation := some v2, name := some (strTrim s2), links := [⟨h1⟩, ⟨h2⟩] } := by
  have hsc1 := stringConsume_element "ele" e1 [] false
    [.ok (.startElement "ele" []), .ok (.characters e2), .ok (.endElement "ele"),
      .ok (.startElement "name" []), .ok (.characters s1), .ok (.endElement "name"),
      .ok (.startElement "name" []), .ok (.characters s2), .ok (.endElement "name"),
      .ok (.startElement "link" [⟨"href", h1⟩]), .ok (.endElement "link"),
      .ok (.startElement "link" [⟨"href", h2⟩]), .ok (.endElement "link"),
      .ok (.endElement tagname)] version
    (fun hc => trim_ne_empty_of_parseF64 he1 hc.1)
  have hsc2 := stringConsume_element "ele" e2 [] false
    [.ok (.startElement "name" []), .ok (.characters s1), .ok (.endElement "name"),
      .ok (.startElement "name" []), .ok (.characters s2), .ok (.endElement "name"),
      .ok (.startElement "link" [⟨"href", h1⟩]), .ok (.endElement "link"),
      .ok (.startElement "link" [⟨"href", h2⟩]), .ok (.endElement "link"),
      .ok (.endElement tagname)] version
    (fun hc => trim_ne_empty_of_parseF64 he2 hc.1)
  have hsc3 := stringConsume_element "name" s1 [] false
    [.ok (.startElement "name" []), .ok (.characters s2), .ok (.endElement "name"),
      .ok (.startElement "link" [⟨"href", h1⟩]), .ok (.endElement "link"),
      .ok (.startElement "link" [⟨"href", h2⟩]), .ok (.endElement "link"),
      .ok (.endElement tagname)] version (fun hc => hs1 hc.1)
  have hsc4 := stringConsume_element "name" s2 [] false
    [.ok (.startElement "link" [⟨"href", h1⟩]), .ok (.endElement "link"),
      .ok (.startElement "link" [⟨"href", h2⟩]), .ok (.endElement "link"),
      .ok (.endElement tagname)] version (fun hc => hs2 hc.1)
  have hlk1 := linkConsume_element h1
    [.ok (.startElement "link" [⟨"href", h2⟩]), .ok (.endElement "link"),
      .ok (.endElement tagname)] version
  have hlk2 := linkConsume_element h2 [.ok (.endElement tagname)] version
  simp [consume, verifyStartingTag, hla, hpla, hlo, hplo, consumeLoop, dispatchChild,
    hsc1, hsc2, hsc3, hsc4, hlk1, hlk2, he1, he2, Waypoint.new, Point.new]

/-- Witness for C8. -/
theorem duplicate_children_overwrite_links_append_witness :
    (consume ⟨[.ok (.startElement "wpt" [⟨"lat", "1"⟩, ⟨"lon", "2"⟩]),
        .ok (.startElement "ele" []), .ok (.characters "3"), .ok (.endElement "ele"),
        .ok (.startElement "ele" []), .ok (.characters "4"), .ok (.endElement "ele"),
        .ok (.startElement "name" []), .ok (.characters "a"), .ok (.endElement "name"),
        .ok (.startElement "name" []), .ok (.characters "b"), .ok (.endElement "name"),
        .ok (.startElement "link" [⟨"href", "u1"⟩]), .ok (.endElement "link"),
        .ok (.startElement "link" [⟨"href", "u2"⟩]), .ok (.endElement "link"),
        .ok (.endElement "wpt")], .Gpx11⟩ "wpt").1
      = .ok { Waypoint.new ⟨2, 1⟩ with
          elevation := some 4, name := some "b", links := [⟨"u1"⟩, ⟨"u2"⟩] } := by
  have := duplicate_children_overwrite_links_append "wpt" "3" "4" "a" "b" "u1" "u2"
    [⟨"lat", "1"⟩, ⟨"lon", "2"⟩] .Gpx11 ⟨"lat", "1"⟩ ⟨"lon", "2"⟩ 1 2 3 4
    rfl rfl rfl rfl rfl rfl (by decide) (by decide)
  simpa using this

/-! ## C9 -/

/-- Counterexample to C9 as stated: a `dgpsid` child with text `1024`, which
is outside the 0–1023 DGPS station id range, is accepted (it fits in a u16)
and stored as-is instead of failing the parse. -/
theorem dgpsid_out_of_range_accepted_counterexample :
    (consume ⟨[.ok (.startElement "wpt" [⟨"lat", "1"⟩, ⟨"lon", "2"⟩]),
        .ok (.startElement "dgpsid" []), .ok (.characters "1024"),
        .ok (.endElement "dgpsid"), .ok (.endElement "wpt")], .Gpx11⟩ "wpt").1
      = .ok { Waypoint.new ⟨2, 1⟩ with dgpsid := some 1024 }
    ∧ (1023 : Nat) < 1024 :=
  ⟨rfl, by decide⟩

/-- C9 (amended): a `dgpsid` child whose trimmed text parses as a u16
(0–65535) is stored as-is — the 0–1023 DGPS range is not enforced — and
text that does not parse as a u16 (negative, non-numeric, or at least
65536) fails the parse with the DGPS station id cast error. -/
theorem dgpsid_u16_amended (tagname s : String) (attrs : List Attribute)
    (version : GpxVersion) (latA lonA : Attribute) (la lo : Rat)
    (hla : attrs.find? (fun attr => attr.name == "lat") = some latA)
    (hpla : parseF64 latA.value = some la)
    (hlo : attrs.find? (fun attr => attr.name == "lon") = some lonA)
    (hplo : parseF64 lonA.value = some lo) :
    (∀ n, parseU16 (strTrim s) = some n →
      (consume ⟨[.ok (.startElement tagname attrs), .ok (.startElement "dgpsid" []),
          .ok (.characters s), .ok (.endElement "dgpsid"), .ok (.endElement tagname)],
          version⟩ tagname).1
        = .ok { Waypoint.new ⟨lo, la⟩ with dgpsid := some n } ∧ n ≤ 65535)
    ∧ (strTrim s ≠ "" → parseU16 (strTrim s) = none →
      (consume ⟨[.ok (.startElement tagname attrs), .ok (.startElement "dgpsid" []),
          .ok (.characters s), .ok (.endElement "dgpsid"), .ok (.endElement tagname)],
          version⟩ tagname).1
        = .error (.castError "error while casting DGPS station ID to u16")) := by
  constructor
  · intro n hn
    have hsc := stringConsume_element "dgpsid" s [] false
      [.ok (.endElement tagname)] version
      (fun hc => trim_ne_empty_of_parseU16 hn hc.1)
    refine ⟨?_, parseUIntBounded_le hn⟩
    simp [consume, verifyStartingTag, hla, hpla, hlo, hplo, consumeLoop, dispatchChild,
      hsc, hn, Waypoint.new, Point.new]
  · intro hne hn
    have hsc := stringConsume_element "dgpsid" s [] false
      [.ok (.endElement tagname)] version (fun hc => hne hc.1)
    simp [consume, verifyStartingTag, hla, hpla, hlo, hplo, consumeLoop, dispatchChild,
      hsc, hn]

/-- Witness for the amended C9: text `70000` overflows a u16 and fails with
the DGPS station id cast error. -/
theorem dgpsid_u16_amended_witness :
    (consume ⟨[.ok (.startElement "wpt" [⟨"lat", "1"⟩, ⟨"lon", "2"⟩]),
        .ok (.startElement "dgpsid" []), .ok (.characters "70000"),
        .ok (.endElement "dgpsid"), .ok (.endElement "wpt")], .Gpx11⟩ "wpt").1
      = .error (.castError "error while casting DGPS station ID to u16") :=
  (dgpsid_u16_amended "wpt" "70000" [⟨"lat", "1"⟩, ⟨"lon", "2"⟩] .Gpx11
    ⟨"lat", "1"⟩ ⟨"lon", "2"⟩ 1 2 rfl rfl rfl rfl).2 (by decide) rfl

end Gpx
